import Mathlib

/-
Verification of `src/simple_server.py` against its specification.

The script under `src/` brings in the standard modules `http.server` and
`socketserver` and then consists of:

  PORT = 8000
  Handler = http.server.SimpleHTTPRequestHandler
  with socketserver.TCPServer(("", PORT), Handler) as httpd:
      print("good morning")
      httpd.serve_forever()

The script itself contributes only constants and control flow; the request
handler (`http.server.SimpleHTTPRequestHandler`), the serve loop
(`socketserver.TCPServer.serve_forever`) and the interpreter's treatment of
unhandled exceptions are library/runtime behaviour whose source is not part
of this repository. Those parts are modelled from the specification's own
description of them (each such definition carries a doc comment starting
`Modelled from the spec:`). Everything that is visible in the script —
the port constant, the wildcard bind address, the absence of any
configuration surface, the single `print` between bind and loop, the
absence of any exception handler around the loop — is embedded directly
from the source.
-/

namespace SimpleServer

/-- File contents are modelled as a list of byte values. -/
abbrev Bytes := List Nat

/-- The filesystem visible to the process: `files` are the files under the
working directory (path segments relative to the working directory, paired
with their bytes); `outside` are files outside the working directory, which
a correct handler must never serve. The script itself never touches the
filesystem; only the (modelled) handler reads `files`. -/
structure Fs where
  files : List (List String × Bytes)
  outside : List (List String × Bytes)
deriving DecidableEq

/-- An HTTP response as observed by a client: status code, the value of the
content-length header, and the body bytes. -/
structure Response where
  status : Nat
  contentLength : Nat
  body : Bytes
deriving DecidableEq

/-- An HTTP request: method token and raw request path. -/
structure Request where
  method : String
  path : String
deriving DecidableEq

/-- Source line `PORT = 8000`. -/
def PORT : Nat := 8000

/-- Source line `socketserver.TCPServer(("", PORT), Handler)`: the address
pair passed to the server constructor. The script reads no command-line
arguments and no environment variables, so the embedding makes the address
a function of both and the function is constant. The empty host string is
Python's encoding of the wildcard (all-interfaces) address. -/
def server_address (_argv : List String) (_env : List (String × String)) :
    String × Nat :=
  ("", PORT)

/-- Split a character list on `/`, collecting the segments as strings. -/
def splitSlashAux : List Char → List Char → List String
  | cur, [] => [String.mk cur.reverse]
  | cur, c :: rest =>
    if c = '/' then String.mk cur.reverse :: splitSlashAux [] rest
    else splitSlashAux (c :: cur) rest

/-- Modelled from the spec: `SimpleHTTPRequestHandler` (not part of this
repository) splits the raw request path on `/` and discards empty and
current-directory segments before resolving it. -/
def parsePath (s : String) : List String :=
  (splitSlashAux [] s.data).filter (fun seg => seg != "" && seg != ".")

/-- Modelled from the spec: resolution of `..` segments against an
accumulator of already-resolved segments; a `..` with nothing left to pop
means the path escapes the working directory, which the handler must
reject, so resolution returns `none`. -/
def resolveSegs : List String → List String → Option (List String)
  | acc, [] => some acc.reverse
  | acc, seg :: rest =>
    if seg = ".." then
      match acc with
      | [] => none
      | _ :: acc' => resolveSegs acc' rest
    else resolveSegs (seg :: acc) rest

/-- Modelled from the spec: the handler maps the requested path to a
location under the working directory; `none` means the path escapes the
working directory ("directory traversal outside the working directory must
be rejected by the handler"). -/
def translate_path (raw : String) : Option (List String) :=
  resolveSegs [] (parsePath raw)

/-- Look a resolved path up among the files of the working directory. -/
def lookupFile (fs : Fs) (p : List String) : Option Bytes :=
  (fs.files.find? (fun e => e.1 == p)).map (fun e => e.2)

/-- Bytes of a relative path name, segments joined by the `/` byte (47). -/
def nameBytes : List String → Bytes
  | [] => []
  | [s] => s.data.map Char.toNat
  | s :: rest => s.data.map Char.toNat ++ 47 :: nameBytes rest

/-- Join per-file lines with the newline byte (10). -/
def joinLines : List Bytes → Bytes
  | [] => []
  | [b] => b
  | b :: rest => b ++ 10 :: joinLines rest

/-- Whether a resolved path names a directory. The working directory
itself (the empty path) is always a directory; any other path names a
directory when some file lies strictly under it. On a real filesystem a
path cannot simultaneously be a regular file and a directory, a state the
`Fs` type does not rule out, so a path with a file at it is treated as the
file and not as a directory. -/
def dirExists (fs : Fs) (segs : List String) : Bool :=
  segs == [] ||
  (lookupFile fs segs == none &&
   fs.files.any (fun e =>
     e.1.take segs.length == segs && decide (segs.length < e.1.length)))

/-- Modelled from the spec: the directory listing emitted for a directory —
a page whose bytes are a deterministic function of the names of the entries
actually present under that directory. -/
def listingBody (fs : Fs) (segs : List String) : Bytes :=
  joinLines ((fs.files.filter (fun e => e.1.take segs.length == segs)).map
    (fun e => nameBytes (e.1.drop segs.length)))

/-- A 200 response carrying the given bytes; content-length is their count. -/
def okResponse (b : Bytes) : Response :=
  { status := 200, contentLength := b.length, body := b }

/-- An error response with the given status and an empty body. -/
def errorResponse (code : Nat) : Response :=
  { status := code, contentLength := 0, body := [] }

/-- Modelled from the spec: `SimpleHTTPRequestHandler`'s GET behaviour (the
handler's source is not part of this repository): a path that escapes the
working directory is rejected with 404; a path that names a directory —
the working directory itself or an existing subdirectory — serves that
directory's `index.html` when present and otherwise a directory listing
("returns a directory listing if the path names a directory"); any other
path serves the matching file's bytes unchanged with 200, or 404 when no
file matches. -/
def do_GET (fs : Fs) (raw : String) : Response :=
  match translate_path raw with
  | none => errorResponse 404
  | some segs =>
    if dirExists fs segs then
      match lookupFile fs (segs ++ ["index.html"]) with
      | some b => okResponse b
      | none => okResponse (listingBody fs segs)
    else
      match lookupFile fs segs with
      | some b => okResponse b
      | none => errorResponse 404

/-- Modelled from the spec: dispatch of one request by the handler
(`SimpleHTTPRequestHandler`, not part of this repository). GET serves the
file; HEAD sends the same status and content-length with no body; any other
method is answered 501 (unsupported method). The handler defines no
filesystem-writing behaviour, so the filesystem is returned unchanged. -/
def handle_one_request (fs : Fs) (r : Request) : Response × Fs :=
  if r.method = "GET" then
    (do_GET fs r.path, fs)
  else if r.method = "HEAD" then
    let g := do_GET fs r.path
    ({ status := g.status, contentLength := g.contentLength, body := [] }, fs)
  else
    (errorResponse 501, fs)

/-- External events reaching the serving process: an incoming request, or
an interrupt signal. -/
inductive Event
  | req (r : Request)
  | interrupt
deriving DecidableEq

/-- Phase of the process after the bind, per the spec's state machine:
still in the accept loop, or terminated with an exit status. -/
inductive Phase
  | Serving
  | Terminated (exitCode : Nat)
deriving DecidableEq

/-- Result of running the serve loop on a finite event trace. -/
structure ServeOut where
  responses : List Response
  fs : Fs
  phase : Phase
  portBound : Bool
deriving DecidableEq

/-- Modelled from the spec: `httpd.serve_forever()` together with the
script's `with` statement. Each request is handed to the handler, whose
result is always a response — per-request failures become HTTP error
statuses, never exceptions — and the loop continues. An interrupt raises
KeyboardInterrupt inside `serve_forever`; the `with` statement's exit
closes the listening socket (the port ceases to be bound) and the
exception, unhandled anywhere in the script, makes the interpreter
terminate the process with exit status 1. An exhausted trace leaves the
process still serving with the port bound. -/
def serve_forever (fs : Fs) : List Event → ServeOut
  | [] => { responses := [], fs := fs, phase := Phase.Serving, portBound := true }
  | Event.interrupt :: _ =>
    { responses := [], fs := fs, phase := Phase.Terminated 1, portBound := false }
  | Event.req r :: rest =>
    let pr := handle_one_request fs r
    let out := serve_forever pr.2 rest
    { out with responses := pr.1 :: out.responses }

/-- Observable outcome of one invocation of the script. `exitCode = none`
means the process is still running (the event trace ended while serving).
`diagnostic` records whether the interpreter printed an error traceback to
standard error. -/
structure ScriptResult where
  stdoutLines : List String
  diagnostic : Bool
  exitCode : Option Nat
  responses : List Response
  portBound : Bool
  fs : Fs
deriving DecidableEq

/-- The whole script, embedded from the source. `bindOk` is whether the
`socketserver.TCPServer(("", PORT), Handler)` constructor succeeds in
binding the listening socket. On success the script prints the literal
line `good morning` and enters `serve_forever`. On failure the constructor
raises OSError, which nothing in the script catches (modelled from the
spec: the interpreter then prints a diagnostic and exits with status 1),
so nothing is printed and the loop is never entered. -/
def runScript (bindOk : Bool) (fs : Fs) (events : List Event) : ScriptResult :=
  if bindOk then
    let out := serve_forever fs events
    match out.phase with
    | Phase.Serving =>
      { stdoutLines := ["good morning"], diagnostic := false, exitCode := none,
        responses := out.responses, portBound := out.portBound, fs := out.fs }
    | Phase.Terminated c =>
      { stdoutLines := ["good morning"], diagnostic := true, exitCode := some c,
        responses := out.responses, portBound := out.portBound, fs := out.fs }
  else
    { stdoutLines := [], diagnostic := true, exitCode := some 1,
      responses := [], portBound := false, fs := fs }

/-- Auxiliary: a trace containing an interrupt drives the serve loop to
termination with exit status 1 and unbinds the port (the `with` statement
closes the listening socket before the unhandled KeyboardInterrupt ends
the process). -/
theorem serve_forever_interrupt (fs : Fs) (events : List Event)
    (h : Event.interrupt ∈ events) :
    (serve_forever fs events).phase = Phase.Terminated 1 ∧
    (serve_forever fs events).portBound = false := by
  induction events generalizing fs with
  | nil => cases h
  | cons e rest ih =>
    cases e with
    | interrupt => exact ⟨rfl, rfl⟩
    | req r =>
      have hr : Event.interrupt ∈ rest := by
        rcases List.mem_cons.mp h with h' | h'
        · exact absurd h' (by simp)
        · exact h'
      have := ih (handle_one_request fs r).2 hr
      exact ⟨by simp [serve_forever, this.1], by simp [serve_forever, this.2]⟩

/-- C9: the program exposes no configuration surface — whatever the
command line and environment are, the script binds the wildcard address
(the empty host string) and the fixed port 8000, and `PORT` is the
constant 8000. -/
theorem c9_no_configuration_surface (argv : List String)
    (env : List (String × String)) :
    server_address argv env = ("", 8000) ∧ PORT = 8000 :=
  ⟨rfl, rfl⟩

/-- C2: when the bind succeeds the script writes exactly the single line
`good morning` to standard output, whatever happens afterwards in the serve
loop; when the bind fails nothing is written to standard output. -/
theorem c2_good_morning_exactly_on_bind (fs : Fs) (events : List Event) :
    (runScript true fs events).stdoutLines = ["good morning"] ∧
    (runScript false fs events).stdoutLines = [] := by
  constructor
  · cases hp : (serve_forever fs events).phase with
    | Serving => simp [runScript, hp]
    | Terminated c => simp [runScript, hp]
  · rfl

/-- C3: when the listening socket cannot be bound, the constructor's
exception is unhandled: the process exits with status 1 (non-zero), a
diagnostic is emitted, and the serve loop is never entered (no request is
ever answered). -/
theorem c3_bind_failure_fatal (fs : Fs) (events : List Event) :
    (runScript false fs events).exitCode = some 1 ∧
    (runScript false fs events).exitCode ≠ some 0 ∧
    (runScript false fs events).diagnostic = true ∧
    (runScript false fs events).responses = [] :=
  ⟨rfl, by simp [runScript], rfl, rfl⟩

/-- C7: a trace consisting only of requests — including requests for
missing files, traversal attempts and unsupported methods — never
terminates the serve loop: the server is still in the Serving state
afterwards and every request received a response. -/
theorem c7_requests_never_stop_loop (fs : Fs) (reqs : List Request) :
    (serve_forever fs (reqs.map Event.req)).phase = Phase.Serving ∧
    (serve_forever fs (reqs.map Event.req)).responses.length = reqs.length := by
  induction reqs generalizing fs with
  | nil => exact ⟨rfl, rfl⟩
  | cons r rest ih =>
    have := ih (handle_one_request fs r).2
    exact ⟨by simp [serve_forever, this.1],
           by simp [serve_forever, this.2]⟩

/-- C1 counterexample: interrupting the serving process does not give exit
status 0. The script installs no KeyboardInterrupt handler, so the
interrupt raised inside `serve_forever` propagates out unhandled and the
interpreter exits with status 1: at the concrete trace consisting of a
single interrupt, the exit code is `some 1`, not `some 0`. -/
theorem c1_interrupt_exit_zero_counterexample :
    (runScript true { files := [], outside := [] } [Event.interrupt]).exitCode
      = some 1 ∧
    (runScript true { files := [], outside := [] } [Event.interrupt]).exitCode
      ≠ some 0 := by
  decide

/-- C1 (amended): on any trace containing an interrupt, the process exits
with status 1 — a non-zero status, since the KeyboardInterrupt is unhandled
— and the listening port is no longer bound afterwards, so it is free to be
bound again by a new process. -/
theorem c1_interrupt_exits_nonzero_port_freed (fs : Fs) (events : List Event)
    (h : Event.interrupt ∈ events) :
    (runScript true fs events).exitCode = some 1 ∧
    (runScript true fs events).exitCode ≠ some 0 ∧
    (runScript true fs events).portBound = false := by
  have h1 := (serve_forever_interrupt fs events h).1
  have h2 := (serve_forever_interrupt fs events h).2
  refine ⟨?_, ?_, ?_⟩ <;> simp [runScript, h1, h2]

/-- C1 witness: the amended theorem evaluated at a concrete trace — one
GET request followed by an interrupt. -/
theorem c1_interrupt_exits_nonzero_port_freed_witness :
    (runScript true { files := [], outside := [] }
      [Event.req { method := "GET", path := "/" }, Event.interrupt]).exitCode
        = some 1 ∧
    (runScript true { files := [], outside := [] }
      [Event.req { method := "GET", path := "/" }, Event.interrupt]).exitCode
        ≠ some 0 ∧
    (runScript true { files := [], outside := [] }
      [Event.req { method := "GET", path := "/" }, Event.interrupt]).portBound
        = false :=
  c1_interrupt_exits_nonzero_port_freed { files := [], outside := [] }
    [Event.req { method := "GET", path := "/" }, Event.interrupt] (by decide)

/-- C4: a GET request whose path escapes the working directory (its
resolution hits a `..` above the root) is answered 404, and the response is
independent of whatever files exist outside the working directory — their
contents are never returned. -/
theorem c4_traversal_rejected_no_outside_read (fs : Fs) (raw : String)
    (h : translate_path raw = none) :
    (do_GET fs raw).status = 404 ∧
    ∀ outside : List (List String × Bytes),
      do_GET { files := fs.files, outside := outside } raw
        = do_GET { files := fs.files, outside := [] } raw := by
  constructor
  · simp [do_GET, h, errorResponse]
  · intro o
    simp [do_GET, h]

/-- C4 witness: the theorem evaluated at the path `/..` against a
filesystem whose only file lies outside the working directory. -/
theorem c4_traversal_rejected_no_outside_read_witness :
    (do_GET { files := [], outside := [(["secret"], [7])] } "/..").status
      = 404 ∧
    ∀ outside : List (List String × Bytes),
      do_GET { files := ({ files := [], outside := [(["secret"], [7])] } :
          Fs).files, outside := outside } "/.."
        = do_GET { files := ({ files := [], outside := [(["secret"], [7])] } :
            Fs).files, outside := [] } "/.." :=
  c4_traversal_rejected_no_outside_read
    { files := [], outside := [(["secret"], [7])] } "/.." (by decide)

/-- C5: when `index.html` is present in the working directory, a GET
request to `/` returns status 200 with exactly that file's bytes. -/
theorem c5_index_html_roundtrip (fs : Fs) (b : Bytes)
    (h : lookupFile fs ["index.html"] = some b) :
    (do_GET fs "/").status = 200 ∧ (do_GET fs "/").body = b := by
  have ht : translate_path "/" = some [] := by decide
  have hd : dirExists fs [] = true := by simp [dirExists]
  constructor <;> simp [do_GET, ht, hd, h, okResponse]

/-- C5 witness: the theorem evaluated at a filesystem whose `index.html`
holds the bytes `[104, 105]`. -/
theorem c5_index_html_roundtrip_witness :
    (do_GET { files := [(["index.html"], [104, 105])], outside := [] }
        "/").status = 200 ∧
    (do_GET { files := [(["index.html"], [104, 105])], outside := [] }
        "/").body = [104, 105] :=
  c5_index_html_roundtrip
    { files := [(["index.html"], [104, 105])], outside := [] } [104, 105]
    (by decide)

/-- C6 counterexample: the claim "every GET whose path has no
corresponding file is answered 404" fails at directory paths. With an
empty working directory (so no path corresponds to any file at all), a GET
to `/` is answered 200 — the directory listing — not 404; likewise, with
only `sub/a.txt` present, a GET to the subdirectory path `/sub`, which has
no corresponding file, is answered 200 (its listing), not 404. -/
theorem c6_missing_file_404_counterexample :
    ({ files := [], outside := [] } : Fs).files = [] ∧
    lookupFile { files := [], outside := [] } (parsePath "/") = none ∧
    (do_GET { files := [], outside := [] } "/").status = 200 ∧
    (do_GET { files := [], outside := [] } "/").status ≠ 404 ∧
    lookupFile { files := [(["sub", "a.txt"], [1])], outside := [] }
      (parsePath "/sub") = none ∧
    (do_GET { files := [(["sub", "a.txt"], [1])], outside := [] }
      "/sub").status = 200 ∧
    (do_GET { files := [(["sub", "a.txt"], [1])], outside := [] }
      "/sub").status ≠ 404 := by
  decide

/-- C6 (amended): a GET request whose path resolves inside the working
directory to a location that neither names a directory (the working
directory itself or an existing subdirectory — those are served their
index or listing) nor has a corresponding file is answered 404. -/
theorem c6_missing_file_404 (fs : Fs) (raw : String) (segs : List String)
    (h : translate_path raw = some segs)
    (hd : dirExists fs segs = false)
    (hl : lookupFile fs segs = none) :
    (do_GET fs raw).status = 404 := by
  simp [do_GET, h, hd, hl, errorResponse]

/-- C6 witness: the amended theorem evaluated at the path `/sub/nope`
against a working directory holding only `sub/a.txt`. -/
theorem c6_missing_file_404_witness :
    (do_GET { files := [(["sub", "a.txt"], [1])], outside := [] }
      "/sub/nope").status = 404 :=
  c6_missing_file_404 { files := [(["sub", "a.txt"], [1])], outside := [] }
    "/sub/nope" ["sub", "nope"] (by decide) (by decide) (by decide)

/-- C8: two sequential GET requests for the same existing file, with the
filesystem unchanged in between (the handler never changes it), produce the
same response twice: identical body bytes — the file's bytes — and
identical content-length. -/
theorem c8_two_gets_identical (fs : Fs) (p : String) (seg : String)
    (segs : List String) (b : Bytes)
    (h : translate_path p = some (seg :: segs))
    (hb : lookupFile fs (seg :: segs) = some b) :
    ∃ resp : Response,
      (serve_forever fs [Event.req { method := "GET", path := p },
          Event.req { method := "GET", path := p }]).responses
        = [resp, resp] ∧
      resp.body = b ∧ resp.contentLength = b.length := by
  refine ⟨okResponse b, ?_, rfl, rfl⟩
  have hd : dirExists fs (seg :: segs) = false := by simp [dirExists, hb]
  have hg : do_GET fs p = okResponse b := by simp [do_GET, h, hd, hb]
  simp [serve_forever, handle_one_request, hg]

/-- C8 witness: the theorem evaluated at the file `/a.txt` holding the
bytes `[1, 2, 3]`. -/
theorem c8_two_gets_identical_witness :
    ∃ resp : Response,
      (serve_forever { files := [(["a.txt"], [1, 2, 3])], outside := [] }
          [Event.req { method := "GET", path := "/a.txt" },
           Event.req { method := "GET", path := "/a.txt" }]).responses
        = [resp, resp] ∧
      resp.body = [1, 2, 3] ∧ resp.contentLength = [1, 2, 3].length :=
  c8_two_gets_identical { files := [(["a.txt"], [1, 2, 3])], outside := [] }
    "/a.txt" "a.txt" [] [1, 2, 3] (by decide) (by decide)

/-- C10: a request whose method is neither GET nor HEAD is answered with
status 501, and handling it leaves the filesystem exactly as it was — no
file is created, modified or deleted. -/
theorem c10_unsupported_method_501 (fs : Fs) (r : Request)
    (h1 : r.method ≠ "GET") (h2 : r.method ≠ "HEAD") :
    (handle_one_request fs r).1.status = 501 ∧
    (handle_one_request fs r).2 = fs := by
  constructor <;> simp [handle_one_request, h1, h2, errorResponse]

/-- C10 witness: the theorem evaluated at a POST request against a
one-file working directory. -/
theorem c10_unsupported_method_501_witness :
    (handle_one_request { files := [(["a.txt"], [1])], outside := [] }
        { method := "POST", path := "/" }).1.status = 501 ∧
    (handle_one_request { files := [(["a.txt"], [1])], outside := [] }
        { method := "POST", path := "/" }).2
      = { files := [(["a.txt"], [1])], outside := [] } :=
  c10_unsupported_method_501 { files := [(["a.txt"], [1])], outside := [] }
    { method := "POST", path := "/" } (by decide) (by decide)

end SimpleServer
